import Mathlib

set_option maxRecDepth 4000

/-!
Shallow embedding of the Tasks API (src/main.py): a FastAPI CRUD service over
a single SQLite-backed `Task` table, with pydantic validation and a bearer
token gate on mutating routes.  Timestamps (`created_at`) are modelled as
natural numbers (only their order matters); the SQLite store is modelled as a
`List Task` of rows; HTTP error responses are modelled by `ApiError`, carrying
the status code the service's exception handlers produce.  Python string
operations are modelled on the character list of a `String`, so that every
definition computes by kernel reduction.
-/

namespace TasksApi

/-- Python `str.strip()`: remove leading and trailing whitespace. -/
def pyStrip (s : String) : String :=
  String.mk (((s.data.dropWhile Char.isWhitespace).reverse.dropWhile
    Char.isWhitespace).reverse)

/-- Python `str.startswith(p)`. -/
def pyStartsWith (s p : String) : Bool :=
  p.data.isPrefixOf s.data

/-- Python `s.removeprefix("Bearer ")` on a string already known to start
with `"Bearer "`: drop its seven characters. -/
def dropBearerTag (s : String) : String :=
  String.mk (s.data.drop 7)

/-- The `Task` table row (src/main.py, `class Task(SQLModel, table=True)`):
`id` is the SQLite INTEGER PRIMARY KEY (rowid), `description` defaults to
`"desc"`, `done` to `false`; `created_at` is assigned at creation. -/
structure Task where
  id : Nat
  title : String
  description : String
  done : Bool
  created_at : Nat
deriving Repr, DecidableEq

/-- Request body of `POST /tasks` (src/main.py, `class TaskCreate`): all three
fields are optional at the pydantic layer (`title: str | None = None`).  An
absent JSON field and an explicit `null` both parse to `none`. -/
structure TaskCreate where
  title : Option String
  description : Option String
  done : Option Bool
deriving Repr, DecidableEq

/-- Request body of `PATCH /tasks/{id}` (src/main.py, `class TaskUpdate`): all
fields optional; absent and `null` both parse to `none`. -/
structure TaskUpdate where
  title : Option String
  description : Option String
  done : Option Bool
deriving Repr, DecidableEq

/-- The error responses the service can produce, tagged with their detail
string.  `validationError` is the 422 produced by the
`RequestValidationError` handler, `serverError` the generic 500 produced when
an exception (e.g. a SQLite `IntegrityError`) escapes the handlers. -/
inductive ApiError where
  | unauthorized (detail : String)
  | notFound (detail : String)
  | validationError (detail : String)
  | serverError (detail : String)
deriving Repr, DecidableEq

/-- HTTP status code of each error response (src/main.py exception handlers
and the `HTTPException`s raised in the routes). -/
def ApiError.statusCode : ApiError → Nat
  | .unauthorized _ => 401
  | .notFound _ => 404
  | .validationError _ => 422
  | .serverError _ => 500

/-- Status code of the error response of a failed request, `none` when the
request succeeded. -/
def errStatus {α : Type} : Except ApiError α → Option Nat
  | .error e => some e.statusCode
  | .ok _ => none

/-- Pydantic validator `TaskCreate.title_not_blank_if_provided`
(src/main.py:81-88): `None` passes through; otherwise the title is rejected
when blank after stripping, and the stripped title is returned. -/
def title_not_blank_if_provided (v : Option String) : Except String (Option String) :=
  match v with
  | none => .ok none
  | some s => if pyStrip s = "" then .error "title cannot be blank" else .ok (some (pyStrip s))

/-- Pydantic validator `TaskUpdate.title_if_present_must_not_be_blank`
(src/main.py:96-101): same behaviour — a present title must not be blank and
is stripped. -/
def title_if_present_must_not_be_blank (v : Option String) : Except String (Option String) :=
  match v with
  | none => .ok none
  | some s => if pyStrip s = "" then .error "title must not be blank" else .ok (some (pyStrip s))

/-- Parsing a `POST /tasks` body: pydantic runs the title validator; failure
becomes a 422 `RequestValidationError` before the route handler runs. -/
def TaskCreate.validate (p : TaskCreate) : Except String TaskCreate :=
  match title_not_blank_if_provided p.title with
  | .error msg => .error msg
  | .ok t => .ok { p with title := t }

/-- Parsing a `PATCH /tasks/{id}` body: pydantic runs the title validator. -/
def TaskUpdate.validate (p : TaskUpdate) : Except String TaskUpdate :=
  match title_if_present_must_not_be_blank p.title with
  | .error msg => .error msg
  | .ok t => .ok { p with title := t }

/-- `require_bearer_token` (src/main.py:193-199): the `Authorization` header
(absent modelled as `none`, read as `""`) must start with `"Bearer "`; the
rest of the header, stripped, must equal the configured `API_TOKEN`. -/
def require_bearer_token (API_TOKEN : String) (auth : Option String) :
    Except ApiError Unit :=
  let a := auth.getD ""
  if ¬ pyStartsWith a "Bearer " then .error (.unauthorized "Missing token")
  else
    let token := pyStrip (dropBearerTag a)
    if token ≠ API_TOKEN then .error (.unauthorized "Invalid token") else .ok ()

/-- SQLite rowid assignment for an INTEGER PRIMARY KEY column without
AUTOINCREMENT (the `id` field of `Task`): the new row receives one more than
the largest rowid currently in the table, and `1` on an empty table.  In
particular rowids of deleted rows can be reassigned. -/
def nextId (db : List Task) : Nat :=
  (db.map Task.id).foldr Nat.max 0 + 1

/-- `POST /tasks` (src/main.py:210-226), as a function of the configured
token, the `Authorization` header, the raw body, the stored rows and the
current clock.  Pipeline: bearer-token dependency, pydantic body validation,
then the handler builds the row — `description` falls back to `"desc"` when
the field is `None` or `""` (Python truthiness of `payload.description`),
otherwise it is stripped; `done` defaults to `false`.  A `None` title passes
validation but violates the NOT NULL constraint on `task.title` at INSERT
(SQLModel table models do not re-validate), surfacing as a 500. -/
def create_task (API_TOKEN : String) (auth : Option String) (raw : TaskCreate)
    (db : List Task) (now : Nat) : Except ApiError (List Task × Task) :=
  match require_bearer_token API_TOKEN auth with
  | .error e => .error e
  | .ok _ =>
    match TaskCreate.validate raw with
    | .error msg => .error (.validationError msg)
    | .ok payload =>
      match payload.title with
      | none => .error (.serverError "NOT NULL constraint failed: task.title")
      | some t =>
        let task : Task :=
          { id := nextId db
            title := t
            description :=
              match payload.description with
              | none => "desc"
              | some d => if d = "" then "desc" else pyStrip d
            done := payload.done.getD false
            created_at := now }
        .ok (db ++ [task], task)

/-- Row order produced by `ORDER BY created_at ASC, id ASC`
(`sort = "oldest"`). -/
def oldestOrder (a b : Task) : Prop :=
  a.created_at < b.created_at ∨ (a.created_at = b.created_at ∧ a.id ≤ b.id)

/-- Row order produced by `ORDER BY created_at DESC, id DESC`
(`sort = "newest"` and every other sort value). -/
def newestOrder (a b : Task) : Prop :=
  b.created_at < a.created_at ∨ (a.created_at = b.created_at ∧ b.id ≤ a.id)

instance : DecidableRel oldestOrder := fun a b => by
  unfold oldestOrder; infer_instance

instance : DecidableRel newestOrder := fun a b => by
  unfold newestOrder; infer_instance

instance : IsTotal Task oldestOrder :=
  ⟨fun a b => by unfold oldestOrder; omega⟩

instance : IsTrans Task oldestOrder :=
  ⟨fun a b c hab hbc => by unfold oldestOrder at *; omega⟩

instance : IsTotal Task newestOrder :=
  ⟨fun a b => by unfold newestOrder; omega⟩

instance : IsTrans Task newestOrder :=
  ⟨fun a b c hab hbc => by unfold newestOrder at *; omega⟩

/-- The `WHERE Task.done == done` filter of `GET /tasks`, skipped when the
query parameter is absent (src/main.py:238-239). -/
def filterDone (db : List Task) (done : Option Bool) : List Task :=
  match done with
  | none => db
  | some d => db.filter (fun t => t.done == d)

/-- `GET /tasks` (src/main.py:229-247): filter by `done` when given, order by
`created_at, id` (ascending iff `sort = "oldest"`, descending otherwise),
then `OFFSET offset LIMIT limit`.  `limit` and `offset` are plain ints with
defaults 3 and 0 and no declared bounds; SQLite treats a negative OFFSET as 0
and a negative LIMIT as "no limit". -/
def list_tasks (db : List Task) (limit : Int) (offset : Int) (sort : String)
    (done : Option Bool) : List Task :=
  let rows := filterDone db done
  let ordered :=
    if sort = "oldest" then rows.insertionSort oldestOrder
    else rows.insertionSort newestOrder
  (ordered.drop offset.toNat).take (if limit < 0 then ordered.length else limit.toNat)

/-- `GET /tasks/{task_id}` (src/main.py:250-256): primary-key lookup, 404
when absent. -/
def get_task (task_id : Nat) (db : List Task) : Except ApiError Task :=
  match db.find? (fun t => t.id == task_id) with
  | none => .error (.notFound "Task not found")
  | some t => .ok t

/-- `PATCH /tasks/{task_id}` (src/main.py:259-280): bearer token, body
validation, primary-key lookup (404 when absent), then each field of the
validated payload that is not `None` overwrites the row's field; the row is
committed back. -/
def update_task (API_TOKEN : String) (auth : Option String) (task_id : Nat)
    (raw : TaskUpdate) (db : List Task) : Except ApiError (List Task × Task) :=
  match require_bearer_token API_TOKEN auth with
  | .error e => .error e
  | .ok _ =>
    match TaskUpdate.validate raw with
    | .error msg => .error (.validationError msg)
    | .ok payload =>
      match db.find? (fun t => t.id == task_id) with
      | none => .error (.notFound "Task not found")
      | some task =>
        let task' : Task :=
          { task with
            title := payload.title.getD task.title
            description := payload.description.getD task.description
            done := payload.done.getD task.done }
        .ok (db.map (fun t => if t.id == task_id then task' else t), task')

/-- `DELETE /tasks/{task_id}` (src/main.py:283-295): bearer token,
primary-key lookup (404 when absent), then the ORM issues
`DELETE FROM task WHERE task.id = ?`; success carries the remaining rows
(the HTTP response is 204 with no body). -/
def delete_task (API_TOKEN : String) (auth : Option String) (task_id : Nat)
    (db : List Task) : Except ApiError (List Task) :=
  match require_bearer_token API_TOKEN auth with
  | .error e => .error e
  | .ok _ =>
    match db.find? (fun t => t.id == task_id) with
    | none => .error (.notFound "Task not found")
    | some _ => .ok (db.filter (fun t => t.id != task_id))

/-- C1: for every list request (with the in-range page parameters the claim
is about), the result is obtained by applying the optional `done` filter,
then the ordering (`"oldest"`: ascending by `created_at` with ties ascending
by `id`; any other sort value: descending by `created_at` with ties
descending by `id`), then the offset, then the limit: there is an ordered
sequence that is a permutation of the filtered rows, sorted by the selected
order, of which the response is the page `drop offset` / `take limit`. -/
theorem C1_list_pipeline (db : List Task) (limit offset : Int) (sort : String)
    (done : Option Bool) (hl : 0 ≤ limit) (ho : 0 ≤ offset) :
    ∃ ordered : List Task,
      ordered.Perm (filterDone db done) ∧
      (sort = "oldest" → List.Sorted oldestOrder ordered) ∧
      (sort ≠ "oldest" → List.Sorted newestOrder ordered) ∧
      list_tasks db limit offset sort done =
        (ordered.drop offset.toNat).take limit.toNat := by
  have hnl : ¬ limit < 0 := by omega
  by_cases hs : sort = "oldest"
  · exact ⟨(filterDone db done).insertionSort oldestOrder,
      List.perm_insertionSort _ _,
      fun _ => List.sorted_insertionSort _ _,
      fun hns => absurd hs hns,
      by unfold list_tasks; simp [hs, hnl]⟩
  · exact ⟨(filterDone db done).insertionSort newestOrder,
      List.perm_insertionSort _ _,
      fun hso => absurd hso hs,
      fun _ => List.sorted_insertionSort _ _,
      by unfold list_tasks; simp [hs, hnl]⟩

/-- Witness for C1 at a concrete request: three stored tasks, default page
`limit = 3`, `offset = 0`, `sort = "newest"`, no filter. -/
theorem C1_list_pipeline_witness :
    (0 : Int) ≤ 3 ∧ (0 : Int) ≤ 0 ∧
    (∃ ordered : List Task,
      ordered.Perm (filterDone
        [⟨1, "Tarefa 0", "desc", false, 0⟩, ⟨2, "Tarefa 1", "desc", false, 1⟩,
         ⟨3, "Tarefa 2", "desc", false, 2⟩] none) ∧
      ("newest" = "oldest" → List.Sorted oldestOrder ordered) ∧
      ("newest" ≠ "oldest" → List.Sorted newestOrder ordered) ∧
      list_tasks
        [⟨1, "Tarefa 0", "desc", false, 0⟩, ⟨2, "Tarefa 1", "desc", false, 1⟩,
         ⟨3, "Tarefa 2", "desc", false, 2⟩] 3 0 "newest" none =
        (ordered.drop (0 : Int).toNat).take (3 : Int).toNat) :=
  ⟨by decide, by decide,
   C1_list_pipeline _ 3 0 "newest" none (by decide) (by decide)⟩

/-- C10: every sort value other than the exact string `"oldest"` falls into
the `else` branch of src/main.py:241-244 and behaves exactly like
`"newest"`; the request is not rejected. -/
theorem C10_unknown_sort_like_newest (db : List Task) (limit offset : Int)
    (done : Option Bool) (sort : String) (h : sort ≠ "oldest") :
    list_tasks db limit offset sort done =
      list_tasks db limit offset "newest" done := by
  unfold list_tasks
  have hn : ("newest" : String) ≠ "oldest" := by decide
  simp [h, hn]

/-- Witness for C10 at `sort = "invalid"` on a two-row store. -/
theorem C10_unknown_sort_like_newest_witness :
    ("invalid" : String) ≠ "oldest" ∧
    list_tasks [⟨1, "a", "desc", false, 0⟩, ⟨2, "b", "desc", false, 1⟩]
        3 0 "invalid" none =
      list_tasks [⟨1, "a", "desc", false, 0⟩, ⟨2, "b", "desc", false, 1⟩]
        3 0 "newest" none :=
  ⟨by decide,
   C10_unknown_sort_like_newest _ 3 0 none "invalid" (by decide)⟩

/-- C8 counterexample: a list request with `limit = 1000` (outside 1–100)
and one with `offset = -5` (below 0) both succeed and return a normal page —
`GET /tasks` declares `limit: int = 3` and `offset: int = 0` with no range
constraints, so out-of-range integers are never rejected with 422. -/
theorem C8_out_of_range_page_accepted :
    list_tasks [⟨1, "Tarefa 0", "desc", false, 0⟩] 1000 0 "newest" none =
      [⟨1, "Tarefa 0", "desc", false, 0⟩] ∧
    list_tasks [⟨1, "Tarefa 0", "desc", false, 0⟩] 3 (-5) "newest" none =
      [⟨1, "Tarefa 0", "desc", false, 0⟩] :=
  ⟨rfl, rfl⟩

/-- C8 amended: `limit` and `offset` are not bounds-checked; every integer
value is accepted and the request still returns a page of the ordered
sequence, with SQLite reading a negative offset as 0 and a negative limit as
"no limit". -/
theorem C8_any_page_params_accepted (db : List Task) (limit offset : Int)
    (sort : String) (done : Option Bool)
    (h : limit < 1 ∨ 100 < limit ∨ offset < 0) :
    ∃ ordered : List Task,
      ordered.Perm (filterDone db done) ∧
      list_tasks db limit offset sort done =
        (ordered.drop offset.toNat).take
          (if limit < 0 then ordered.length else limit.toNat) := by
  by_cases hs : sort = "oldest"
  · exact ⟨(filterDone db done).insertionSort oldestOrder,
      List.perm_insertionSort _ _, by unfold list_tasks; simp [hs]⟩
  · exact ⟨(filterDone db done).insertionSort newestOrder,
      List.perm_insertionSort _ _, by unfold list_tasks; simp [hs]⟩

/-- Witness for the amended C8 at `limit = 1000`. -/
theorem C8_any_page_params_accepted_witness :
    ((1000 : Int) < 1 ∨ (100 : Int) < 1000 ∨ (0 : Int) < 0) ∧
    (∃ ordered : List Task,
      ordered.Perm (filterDone [⟨1, "Tarefa 0", "desc", false, 0⟩] none) ∧
      list_tasks [⟨1, "Tarefa 0", "desc", false, 0⟩] 1000 0 "newest" none =
        (ordered.drop (0 : Int).toNat).take
          (if (1000 : Int) < 0 then ordered.length else (1000 : Int).toNat)) :=
  ⟨by decide,
   C8_any_page_params_accepted _ 1000 0 "newest" none (by decide)⟩

/-- C2 counterexample: a create request with the two-character title `"ab"`
(trimmed length 2, outside the claimed 3–80 bound) is not rejected — it is
accepted and a record is stored, because src/main.py validates only
non-blankness of the title and never its length. -/
theorem C2_short_title_accepted :
    create_task "test-token" (some "Bearer test-token")
        ⟨some "ab", none, none⟩ [] 0 =
      .ok ([⟨1, "ab", "desc", false, 0⟩], ⟨1, "ab", "desc", false, 0⟩) :=
  rfl

/-- C2 amended: on create the title, when provided, is trimmed of
surrounding whitespace and the request is rejected with a 422 validation
error exactly when the trimmed title is empty (no record is stored then); no
length bound is enforced — every title that is non-blank after trimming is
accepted and stored trimmed.  An omitted title is not caught by validation
but never yields a record either: the INSERT violates the NOT NULL
constraint on `task.title` and surfaces as a 500. -/
theorem C2_title_rules (API_TOKEN : String) (auth : Option String)
    (raw : TaskCreate) (db : List Task) (now : Nat)
    (hauth : require_bearer_token API_TOKEN auth = .ok ()) :
    (∀ t, raw.title = some t → pyStrip t = "" →
      create_task API_TOKEN auth raw db now =
        .error (.validationError "title cannot be blank")) ∧
    (raw.title = none →
      errStatus (create_task API_TOKEN auth raw db now) = some 500) ∧
    (∀ t, raw.title = some t → pyStrip t ≠ "" →
      ∃ task : Task,
        create_task API_TOKEN auth raw db now = .ok (db ++ [task], task) ∧
        task.title = pyStrip t) := by
  refine ⟨?_, ?_, ?_⟩
  · intro t ht hw
    unfold create_task
    rw [hauth]
    simp [TaskCreate.validate, title_not_blank_if_provided, ht, hw]
  · intro ht
    unfold create_task
    rw [hauth]
    simp [TaskCreate.validate, title_not_blank_if_provided, ht, errStatus,
      ApiError.statusCode]
  · intro t ht hw
    refine ⟨{ id := nextId db, title := pyStrip t,
              description :=
                match raw.description with
                | none => "desc"
                | some d => if d = "" then "desc" else pyStrip d,
              done := raw.done.getD false, created_at := now }, ?_, rfl⟩
    unfold create_task
    rw [hauth]
    simp [TaskCreate.validate, title_not_blank_if_provided, ht, hw]

/-- Witness for the amended C2: with the default token and a well-formed
header, the theorem is applied to the payload with title `"  "`. -/
theorem C2_title_rules_witness :
    require_bearer_token "test-token" (some "Bearer test-token") = .ok () ∧
    ((∀ t, (some "  " : Option String) = some t → pyStrip t = "" →
      create_task "test-token" (some "Bearer test-token")
          ⟨some "  ", none, none⟩ [] 0 =
        .error (.validationError "title cannot be blank")) ∧
    ((some "  " : Option String) = none →
      errStatus (create_task "test-token" (some "Bearer test-token")
          ⟨some "  ", none, none⟩ [] 0) = some 500) ∧
    (∀ t, (some "  " : Option String) = some t → pyStrip t ≠ "" →
      ∃ task : Task,
        create_task "test-token" (some "Bearer test-token")
            ⟨some "  ", none, none⟩ [] 0 = .ok ([] ++ [task], task) ∧
        task.title = pyStrip t)) :=
  ⟨rfl,
   C2_title_rules "test-token" (some "Bearer test-token")
     ⟨some "  ", none, none⟩ [] 0 rfl⟩

/-- C4: a create request (with a valid token) whose title consists only of
whitespace — it strips to the empty string — is rejected by the pydantic
validator with a 422, and no record is stored (the error branch carries no
new storage state). -/
theorem C4_whitespace_title_rejected (API_TOKEN : String) (auth : Option String)
    (title : String) (desc : Option String) (dn : Option Bool)
    (db : List Task) (now : Nat)
    (hauth : require_bearer_token API_TOKEN auth = .ok ())
    (hw : pyStrip title = "") :
    create_task API_TOKEN auth ⟨some title, desc, dn⟩ db now =
      .error (.validationError "title cannot be blank") ∧
    errStatus (create_task API_TOKEN auth ⟨some title, desc, dn⟩ db now) =
      some 422 := by
  have h1 : create_task API_TOKEN auth ⟨some title, desc, dn⟩ db now =
      .error (.validationError "title cannot be blank") := by
    unfold create_task
    rw [hauth]
    simp [TaskCreate.validate, title_not_blank_if_provided, hw]
  exact ⟨h1, by rw [h1]; rfl⟩

/-- Witness for C4: the whitespace-only title `"   "` of the repository's own
test `test_create_validation_blank_title`. -/
theorem C4_whitespace_title_rejected_witness :
    require_bearer_token "test-token" (some "Bearer test-token") = .ok () ∧
    pyStrip "   " = "" ∧
    (create_task "test-token" (some "Bearer test-token")
        ⟨some "   ", some "desc", none⟩ [] 0 =
      .error (.validationError "title cannot be blank") ∧
    errStatus (create_task "test-token" (some "Bearer test-token")
        ⟨some "   ", some "desc", none⟩ [] 0) = some 422) :=
  ⟨rfl, rfl,
   C4_whitespace_title_rejected "test-token" (some "Bearer test-token")
     "   " (some "desc") none [] 0 rfl rfl⟩

/-- C5: every mutating request (create, update, delete) whose
`Authorization` header is missing or not of `Bearer` form (it does not start
with `"Bearer "`, with an absent header read as `""`), or whose stripped
token differs from the configured secret, fails with 401 before the
operation runs — the dependency `require_bearer_token` is evaluated first in
all three handlers, and the error result carries no storage change. -/
theorem C5_mutations_need_token (API_TOKEN : String) (auth : Option String)
    (raw : TaskCreate) (up : TaskUpdate) (tid tid' : Nat)
    (db : List Task) (now : Nat)
    (h : ¬ pyStartsWith (auth.getD "") "Bearer " ∨
         pyStrip (dropBearerTag (auth.getD "")) ≠ API_TOKEN) :
    errStatus (create_task API_TOKEN auth raw db now) = some 401 ∧
    errStatus (update_task API_TOKEN auth tid up db) = some 401 ∧
    errStatus (delete_task API_TOKEN auth tid' db) = some 401 := by
  have hbt : ∃ d, require_bearer_token API_TOKEN auth =
      .error (.unauthorized d) := by
    unfold require_bearer_token
    by_cases hb : pyStartsWith (auth.getD "") "Bearer "
    · rcases h with h | h
      · exact absurd hb h
      · exact ⟨"Invalid token", by simp [hb, h]⟩
    · exact ⟨"Missing token", by simp [hb]⟩
  obtain ⟨d, hd⟩ := hbt
  refine ⟨?_, ?_, ?_⟩
  · unfold create_task; rw [hd]; rfl
  · unfold update_task; rw [hd]; rfl
  · unfold delete_task; rw [hd]; rfl

/-- Witness for C5: a request with no `Authorization` header at all. -/
theorem C5_mutations_need_token_witness :
    (¬ pyStartsWith ((none : Option String).getD "") "Bearer " ∨
      pyStrip (dropBearerTag ((none : Option String).getD "")) ≠ "test-token") ∧
    (errStatus (create_task "test-token" none
        ⟨some "Tarefa", none, none⟩ [] 0) = some 401 ∧
    errStatus (update_task "test-token" none 1
        ⟨none, none, some true⟩ []) = some 401 ∧
    errStatus (delete_task "test-token" none 1 []) = some 401) :=
  ⟨by decide,
   C5_mutations_need_token "test-token" none ⟨some "Tarefa", none, none⟩
     ⟨none, none, some true⟩ 1 1 [] 0 (by decide)⟩

/-- C9 counterexample: a 301-character description is not rejected — the
record is stored with the full description, because src/main.py enforces no
length bound — and a present-but-empty description is not kept trimmed but
replaced by the `"desc"` placeholder (Python truthiness of
`payload.description`). -/
theorem C9_long_description_accepted :
    create_task "test-token" (some "Bearer test-token")
        ⟨some "Tarefa", some (String.mk (List.replicate 301 'a')), none⟩ [] 0 =
      .ok ([⟨1, "Tarefa", String.mk (List.replicate 301 'a'), false, 0⟩],
           ⟨1, "Tarefa", String.mk (List.replicate 301 'a'), false, 0⟩) ∧
    (String.mk (List.replicate 301 'a')).length = 301 ∧
    create_task "test-token" (some "Bearer test-token")
        ⟨some "Tarefa", some "", none⟩ [] 0 =
      .ok ([⟨1, "Tarefa", "desc", false, 0⟩], ⟨1, "Tarefa", "desc", false, 0⟩) :=
  ⟨rfl, rfl, rfl⟩

/-- C9 amended: if the description is omitted — or empty, which Python
truthiness treats the same way — the stored record's description is the
placeholder `"desc"`; a present non-empty description is trimmed and stored;
no length bound is enforced. -/
theorem C9_description_rules (API_TOKEN : String) (auth : Option String)
    (title : String) (desc : Option String) (dn : Option Bool)
    (db : List Task) (now : Nat)
    (hauth : require_bearer_token API_TOKEN auth = .ok ())
    (ht : pyStrip title ≠ "") :
    ∃ task : Task,
      create_task API_TOKEN auth ⟨some title, desc, dn⟩ db now =
        .ok (db ++ [task], task) ∧
      (desc = none → task.description = "desc") ∧
      (desc = some "" → task.description = "desc") ∧
      (∀ d, desc = some d → d ≠ "" → task.description = pyStrip d) := by
  refine ⟨{ id := nextId db, title := pyStrip title,
            description :=
              match desc with
              | none => "desc"
              | some d => if d = "" then "desc" else pyStrip d,
            done := dn.getD false, created_at := now }, ?_, ?_, ?_, ?_⟩
  · unfold create_task
    rw [hauth]
    simp [TaskCreate.validate, title_not_blank_if_provided, ht]
  · intro hd; rw [hd]
  · intro hd; rw [hd]; rfl
  · intro d hd hne; rw [hd]; simp [hne]

/-- Witness for the amended C9 at an omitted description. -/
theorem C9_description_rules_witness :
    require_bearer_token "test-token" (some "Bearer test-token") = .ok () ∧
    pyStrip "Tarefa" ≠ "" ∧
    (∃ task : Task,
      create_task "test-token" (some "Bearer test-token")
          ⟨some "Tarefa", none, none⟩ [] 0 = .ok ([] ++ [task], task) ∧
      ((none : Option String) = none → task.description = "desc") ∧
      ((none : Option String) = some "" → task.description = "desc") ∧
      (∀ d, (none : Option String) = some d → d ≠ "" →
        task.description = pyStrip d)) :=
  ⟨rfl, by decide,
   C9_description_rules "test-token" (some "Bearer test-token") "Tarefa"
     none none [] 0 rfl (by decide)⟩

/-- C3: for every existing task, a partial update whose payload is exactly
`{"done": true}` (title and description absent or `null`, both parsed to
`None`) sets `done` to `true` and leaves `title`, `description`,
`created_at` and `id` untouched, in storage and in the returned record; and
in general any field that is absent or `null` in a validated update payload
is left unchanged, while `id` and `created_at` are never written at all. -/
theorem C3_done_only_update (API_TOKEN : String) (auth : Option String)
    (db : List Task) (tid : Nat) (task : Task)
    (hauth : require_bearer_token API_TOKEN auth = .ok ())
    (hfind : db.find? (fun t => t.id == tid) = some task) :
    (update_task API_TOKEN auth tid ⟨none, none, some true⟩ db =
      .ok (db.map (fun t => if t.id == tid then { task with done := true } else t),
           { task with done := true })) ∧
    (∀ (raw payload : TaskUpdate) (db' : List Task) (task' : Task),
      TaskUpdate.validate raw = .ok payload →
      update_task API_TOKEN auth tid raw db = .ok (db', task') →
      task'.id = task.id ∧ task'.created_at = task.created_at ∧
      (payload.title = none → task'.title = task.title) ∧
      (payload.description = none → task'.description = task.description) ∧
      (payload.done = none → task'.done = task.done)) := by
  constructor
  · unfold update_task
    rw [hauth]
    simp only [TaskUpdate.validate, title_if_present_must_not_be_blank]
    rw [hfind]
    rfl
  · intro raw payload db' task' hval hupd
    unfold update_task at hupd
    rw [hauth] at hupd
    simp only [hval] at hupd
    rw [hfind] at hupd
    simp only [Except.ok.injEq, Prod.mk.injEq] at hupd
    obtain ⟨hdb, htask⟩ := hupd
    subst htask
    refine ⟨rfl, rfl, ?_, ?_, ?_⟩
    · intro h; rw [h]; rfl
    · intro h; rw [h]; rfl
    · intro h; rw [h]; rfl

/-- Witness for C3 on a one-row store. -/
theorem C3_done_only_update_witness :
    require_bearer_token "test-token" (some "Bearer test-token") = .ok () ∧
    [(⟨1, "Tarefa 0", "desc", false, 0⟩ : Task)].find? (fun t => t.id == 1) =
      some ⟨1, "Tarefa 0", "desc", false, 0⟩ ∧
    ((update_task "test-token" (some "Bearer test-token") 1
        ⟨none, none, some true⟩ [⟨1, "Tarefa 0", "desc", false, 0⟩] =
      .ok ([(⟨1, "Tarefa 0", "desc", false, 0⟩ : Task)].map
             (fun t => if t.id == 1
               then { (⟨1, "Tarefa 0", "desc", false, 0⟩ : Task) with done := true }
               else t),
           { (⟨1, "Tarefa 0", "desc", false, 0⟩ : Task) with done := true })) ∧
    (∀ (raw payload : TaskUpdate) (db' : List Task) (task' : Task),
      TaskUpdate.validate raw = .ok payload →
      update_task "test-token" (some "Bearer test-token") 1 raw
        [⟨1, "Tarefa 0", "desc", false, 0⟩] = .ok (db', task') →
      task'.id = (⟨1, "Tarefa 0", "desc", false, 0⟩ : Task).id ∧
      task'.created_at = (⟨1, "Tarefa 0", "desc", false, 0⟩ : Task).created_at ∧
      (payload.title = none →
        task'.title = (⟨1, "Tarefa 0", "desc", false, 0⟩ : Task).title) ∧
      (payload.description = none →
        task'.description = (⟨1, "Tarefa 0", "desc", false, 0⟩ : Task).description) ∧
      (payload.done = none →
        task'.done = (⟨1, "Tarefa 0", "desc", false, 0⟩ : Task).done))) :=
  ⟨rfl, rfl,
   C3_done_only_update "test-token" (some "Bearer test-token")
     [⟨1, "Tarefa 0", "desc", false, 0⟩] 1 ⟨1, "Tarefa 0", "desc", false, 0⟩
     rfl rfl⟩

/-- C7: a partial update on an id that resolves to no record (with a valid
token and a well-formed body, i.e. the request reaches the lookup) fails
with 404; the error result carries no storage state, so the store is
untouched. -/
theorem C7_patch_unknown_id (API_TOKEN : String) (auth : Option String)
    (tid : Nat) (raw payload : TaskUpdate) (db : List Task)
    (hauth : require_bearer_token API_TOKEN auth = .ok ())
    (hval : TaskUpdate.validate raw = .ok payload)
    (hfind : db.find? (fun t => t.id == tid) = none) :
    update_task API_TOKEN auth tid raw db =
      .error (.notFound "Task not found") ∧
    errStatus (update_task API_TOKEN auth tid raw db) = some 404 := by
  have h1 : update_task API_TOKEN auth tid raw db =
      .error (.notFound "Task not found") := by
    unfold update_task
    rw [hauth]
    simp only [hval]
    rw [hfind]
  exact ⟨h1, by rw [h1]; rfl⟩

/-- Witness for C7: a `{"done": true}` update of id 99 on a one-row store. -/
theorem C7_patch_unknown_id_witness :
    require_bearer_token "test-token" (some "Bearer test-token") = .ok () ∧
    TaskUpdate.validate ⟨none, none, some true⟩ =
      .ok (⟨none, none, some true⟩ : TaskUpdate) ∧
    [(⟨1, "Tarefa 0", "desc", false, 0⟩ : Task)].find? (fun t => t.id == 99) =
      none ∧
    (update_task "test-token" (some "Bearer test-token") 99
        ⟨none, none, some true⟩ [⟨1, "Tarefa 0", "desc", false, 0⟩] =
      .error (.notFound "Task not found") ∧
    errStatus (update_task "test-token" (some "Bearer test-token") 99
        ⟨none, none, some true⟩ [⟨1, "Tarefa 0", "desc", false, 0⟩]) =
      some 404) :=
  ⟨rfl, rfl, rfl,
   C7_patch_unknown_id "test-token" (some "Bearer test-token") 99
     ⟨none, none, some true⟩ ⟨none, none, some true⟩
     [⟨1, "Tarefa 0", "desc", false, 0⟩] rfl rfl rfl⟩

/-- C6 counterexample: deleting the task with id 1 succeeds and an immediate
re-fetch would 404, but the id does resolve to a record again later — a
subsequent create on the emptied store receives rowid 1 from SQLite
(`nextId [] = 1`), after which `GET /tasks/1` succeeds.  The claim's "the id
never again resolves to a record" is therefore false. -/
theorem C6_id_resolves_again :
    delete_task "test-token" (some "Bearer test-token") 1
        [⟨1, "Tarefa 0", "desc", false, 0⟩] = .ok [] ∧
    create_task "test-token" (some "Bearer test-token")
        ⟨some "Nova", none, none⟩ [] 1 =
      .ok ([⟨1, "Nova", "desc", false, 1⟩], ⟨1, "Nova", "desc", false, 1⟩) ∧
    get_task 1 [⟨1, "Nova", "desc", false, 1⟩] =
      .ok ⟨1, "Nova", "desc", false, 1⟩ :=
  ⟨rfl, rfl, rfl⟩

/-- C6 amended: after a successful delete of an id, a get-by-id on the
resulting store yields 404 — the id no longer resolves; it can only resolve
again if a later create reassigns it (SQLite hands out max rowid + 1). -/
theorem C6_delete_then_get (API_TOKEN : String) (auth : Option String)
    (tid : Nat) (db db' : List Task)
    (hdel : delete_task API_TOKEN auth tid db = .ok db') :
    get_task tid db' = .error (.notFound "Task not found") ∧
    errStatus (get_task tid db') = some 404 := by
  have hdb : db' = db.filter (fun t => t.id != tid) := by
    unfold delete_task at hdel
    cases h1 : require_bearer_token API_TOKEN auth with
    | error e => rw [h1] at hdel; simp at hdel
    | ok u =>
      rw [h1] at hdel
      cases h2 : db.find? (fun t => t.id == tid) with
      | none => rw [h2] at hdel; simp at hdel
      | some t =>
        rw [h2] at hdel
        simpa [eq_comm] using hdel
  have hfind : (db.filter (fun t => t.id != tid)).find?
      (fun t => t.id == tid) = none := by
    rw [List.find?_eq_none]
    intro x hx
    rw [List.mem_filter] at hx
    simpa using hx.2
  have h1 : get_task tid db' = .error (.notFound "Task not found") := by
    unfold get_task
    rw [hdb, hfind]
  exact ⟨h1, by rw [h1]; rfl⟩

/-- Witness for the amended C6: delete id 1 of a one-row store, then fetch
it. -/
theorem C6_delete_then_get_witness :
    delete_task "test-token" (some "Bearer test-token") 1
        [⟨1, "Tarefa 0", "desc", false, 0⟩] = .ok [] ∧
    (get_task 1 [] = .error (.notFound "Task not found") ∧
    errStatus (get_task 1 ([] : List Task)) = some 404) :=
  ⟨rfl,
   C6_delete_then_get "test-token" (some "Bearer test-token") 1
     [⟨1, "Tarefa 0", "desc", false, 0⟩] [] rfl⟩

end TasksApi
